import Mathlib

/-!
Verification development for the calibration and quality-scoring engine of
the `imu_cal_gui` repository (`src/cal.rs`, `src/quality.rs`).

Modelling conventions (shallow embedding):

* `f64` values are modelled by `ℚ`; arithmetic is exact (IEEE rounding is not
  modelled).  Decimal literals in the source (`0.95`, `1e-3`, `9.80665`, …)
  are taken at their decimal value.
* Where the source can produce the IEEE special values NaN/±∞ (division by a
  zero sample count), values are modelled by the type `FV` below, whose
  arithmetic propagates NaN exactly as IEEE-754 does on the operations the
  source performs.  Signed zero is not modelled.
* Transcendental functions of `f64` (`sqrt`, `atan2`, `cos`, `sin`) have no
  exact rational counterpart.  Quantities the source obtains from them
  (the longitude/latitude of a point, a square root, the per-region ideal
  direction table, the constants `15.0/TAU` and `34.0/TAU`) enter the model
  as explicit arguments, and every theorem holds for an arbitrary
  interpretation of them.  Comparisons against a possibly-NaN latitude or
  longitude are modelled by the type `FQ` (a rational or NaN), with IEEE
  comparison semantics (every comparison with NaN is false) and the Rust
  `as i32` cast semantics (saturating, NaN ↦ 0).
* Rust `Vec<T>` is modelled by `List T`, `Vec::push` by appending at the
  right end, `Vec::clear` by `[]`, `fill_with` by `List.map` of the constant
  function (length-preserving, as in Rust), indexed update by `List.set`.
-/

/-- A triple of rationals: the model of `nalgebra::Vector3<f64>` restricted to
finite values. -/
structure P3 where
  x : ℚ
  y : ℚ
  z : ℚ
deriving DecidableEq

/-- Componentwise addition of 3-vectors. -/
def P3.add (a b : P3) : P3 := ⟨a.x + b.x, a.y + b.y, a.z + b.z⟩

/-- Componentwise subtraction of 3-vectors. -/
def P3.sub (a b : P3) : P3 := ⟨a.x - b.x, a.y - b.y, a.z - b.z⟩

/-- Scalar multiplication `v * c` of a 3-vector. -/
def P3.smul (a : P3) (c : ℚ) : P3 := ⟨a.x * c, a.y * c, a.z * c⟩

/-- The zero vector (`Vector3::zeros()` / `Default::default()`). -/
def P3.zero : P3 := ⟨0, 0, 0⟩

/-- The squared Euclidean norm `x² + y² + z²` of a 3-vector. -/
def P3.sqNorm (a : P3) : ℚ := a.x * a.x + a.y * a.y + a.z * a.z

/-- The source's test `v.norm() < t`, stated without a square root: for
`0 < t` we have `‖v‖ < t ↔ ‖v‖² < t²`, so the strict comparison of the
squared norm against `t²` is the exact content of the source's comparison. -/
def P3.normLt (a : P3) (t : ℚ) : Prop := a.sqNorm < t * t

instance (a : P3) (t : ℚ) : Decidable (a.normLt t) := by
  unfold P3.normLt; infer_instance

/-- Model of an `f64` that may carry an IEEE special value: NaN, +∞, −∞ or a
finite (here: rational) value.  Signed zero is not modelled. -/
inductive FV where
  | nan : FV
  | pinf : FV
  | ninf : FV
  | fin (q : ℚ) : FV
deriving DecidableEq

/-- IEEE negation on `FV`. -/
def FV.neg : FV → FV
  | .nan => .nan
  | .pinf => .ninf
  | .ninf => .pinf
  | .fin q => .fin (-q)

/-- IEEE addition on `FV`: NaN propagates, `+∞ + −∞ = NaN`. -/
def FV.add : FV → FV → FV
  | .nan, _ => .nan
  | _, .nan => .nan
  | .pinf, .ninf => .nan
  | .ninf, .pinf => .nan
  | .pinf, _ => .pinf
  | _, .pinf => .pinf
  | .ninf, _ => .ninf
  | _, .ninf => .ninf
  | .fin a, .fin b => .fin (a + b)

/-- IEEE subtraction on `FV`, as `a + (−b)`. -/
def FV.sub (a b : FV) : FV := a.add b.neg

/-- IEEE division on `FV`: NaN propagates, `0/0 = NaN`, a nonzero finite
value divided by zero gives a signed infinity (the sign of zero is not
modelled; the dividend's sign is used), `∞/∞ = NaN`, finite/∞ = 0. -/
def FV.div : FV → FV → FV
  | .nan, _ => .nan
  | _, .nan => .nan
  | .pinf, .pinf => .nan
  | .pinf, .ninf => .nan
  | .ninf, .pinf => .nan
  | .ninf, .ninf => .nan
  | .pinf, .fin b => if b < 0 then .ninf else .pinf
  | .ninf, .fin b => if b < 0 then .pinf else .ninf
  | .fin _, .pinf => .fin 0
  | .fin _, .ninf => .fin 0
  | .fin a, .fin b =>
      if b = 0 then (if a = 0 then .nan else if 0 < a then .pinf else .ninf)
      else .fin (a / b)

/-- A triple of possibly-non-finite values: the result type of the inertial
calibration computations. -/
structure FV3 where
  x : FV
  y : FV
  z : FV
deriving DecidableEq

/-- The mean of a list of samples exactly as the source computes it:
`l.iter().sum::<f64>() / l.len() as f64`.  For the empty list this is
`0.0 / 0.0 = NaN`. -/
def meanF (l : List ℚ) : FV := FV.div (.fin l.sum) (.fin l.length)

/-- `const G0: f64 = 9.80665;` (`src/cal.rs:1`). -/
def G0 : ℚ := 9.80665

/-- `const G0_THR: f64 = G0 * 0.75;` (`src/cal.rs:2`). -/
def G0_THR : ℚ := G0 * 0.75

/-- Model of `CalData` (`src/cal.rs:22-29`).  The inertial fields carry the
possibly-NaN values `calibrate` computes; the magnetometer fields carry the
ellipsoid-fit output. -/
structure CalData where
  gyro_offset : FV3
  acc_offset : FV3
  acc_scale : FV3
  soft_iron_transf : List (List ℚ)
  hard_iron_bias : P3
deriving DecidableEq

/-- Model of the `Cal` accumulator state (`src/cal.rs:37-47`). -/
structure Cal where
  gyro_points : List P3
  acc_points : List P3
  mag_points : List P3
  acc_points_avg : P3
  gyro_points_avg : P3
  cal_data : Option CalData
deriving DecidableEq

/-- `Cal::new` (`src/cal.rs:50-59`). -/
def Cal.new : Cal :=
  { gyro_points := [], acc_points := [], mag_points := []
    acc_points_avg := P3.zero, gyro_points_avg := P3.zero, cal_data := none }

/-- `Cal::add_acc_measurement_still` (`src/cal.rs:86-93`): the EMA average is
updated first on every call with `alpha = 0.95`, then the sample is pushed
iff `(avg − data).norm() < 1e-2`. -/
def Cal.add_acc_measurement_still (c : Cal) (data : P3) : Cal :=
  let alpha : ℚ := 0.95
  let avg := (c.acc_points_avg.smul alpha).add (data.smul (1 - alpha))
  { c with
    acc_points_avg := avg
    acc_points :=
      if (avg.sub data).normLt 0.01 then c.acc_points ++ [data] else c.acc_points }

/-- `Cal::add_gyro_measurement_still` (`src/cal.rs:95-102`): the EMA average
is updated first on every call with `alpha = 0.98`, then the sample is pushed
iff `(avg − data).norm() < 1e-3`. -/
def Cal.add_gyro_measurement_still (c : Cal) (data : P3) : Cal :=
  let alpha : ℚ := 0.98
  let avg := (c.gyro_points_avg.smul alpha).add (data.smul (1 - alpha))
  { c with
    gyro_points_avg := avg
    gyro_points :=
      if (avg.sub data).normLt 0.001 then c.gyro_points ++ [data] else c.gyro_points }

/-- `Cal::clear_gyro_measurements` (`src/cal.rs:161-163`). -/
def Cal.clear_gyro_measurements (c : Cal) : Cal := { c with gyro_points := [] }

/-- `Cal::clear_accel_measurements` (`src/cal.rs:165-167`). -/
def Cal.clear_accel_measurements (c : Cal) : Cal := { c with acc_points := [] }

/-- `Cal::clear_mag_measurements` (`src/cal.rs:169-171`). -/
def Cal.clear_mag_measurements (c : Cal) : Cal := { c with mag_points := [] }

/-- The positive lobe of one accelerometer axis (`src/cal.rs:185-190` for x):
`points.iter().map(|p| p.axis).filter(|p| *p > G0_THR)`. -/
def lobeP (axis : P3 → ℚ) (pts : List P3) : List ℚ :=
  (pts.map axis).filter (fun v => G0_THR < v)

/-- The negative lobe of one accelerometer axis (`src/cal.rs:191-196` for x):
`points.iter().map(|p| p.axis).filter(|p| *p < -G0_THR)`. -/
def lobeM (axis : P3 → ℚ) (pts : List P3) : List ℚ :=
  (pts.map axis).filter (fun v => v < -G0_THR)

/-- The gyro-offset block of `Cal::calibrate` (`src/cal.rs:175-182`): the
per-component sum divided by the sample count (NaN for zero samples). -/
def gyroOffset (pts : List P3) : FV3 :=
  ⟨meanF (pts.map P3.x), meanF (pts.map P3.y), meanF (pts.map P3.z)⟩

/-- The accelerometer-offset block of `Cal::calibrate` (`src/cal.rs:222-231`):
per axis, the sum of the positive-lobe mean and the negative-lobe mean. -/
def accOffset (pts : List P3) : FV3 :=
  ⟨(meanF (lobeP P3.x pts)).add (meanF (lobeM P3.x pts)),
   (meanF (lobeP P3.y pts)).add (meanF (lobeM P3.y pts)),
   (meanF (lobeP P3.z pts)).add (meanF (lobeM P3.z pts))⟩

/-- The accelerometer-scale block of `Cal::calibrate` (`src/cal.rs:232-245`),
embedded exactly as written: the `range_y` and `range_z` denominators
subtract the mean of `x_m` — the X-axis negative lobe — not the mean of the
respective axis's own negative lobe (`src/cal.rs:236` and `src/cal.rs:238`). -/
def accScale (pts : List P3) : FV3 :=
  let range_x := (meanF (lobeP P3.x pts)).sub (meanF (lobeM P3.x pts))
  let range_y := (meanF (lobeP P3.y pts)).sub (meanF (lobeM P3.x pts))
  let range_z := (meanF (lobeP P3.z pts)).sub (meanF (lobeM P3.x pts))
  ⟨(FV.fin (2 * G0)).div range_x,
   (FV.fin (2 * G0)).div range_y,
   (FV.fin (2 * G0)).div range_z⟩

/-- The accelerometer-scale formula as the specification states it
(spec §4.2): `scale_axis = 2·g₀ / (s⁺ − s⁻)` with each axis using the means
of **its own** positive and negative lobes.  This definition follows the
specification's words and exists to be compared with `accScale`, which
follows the source. -/
def accScaleSpec (pts : List P3) : FV3 :=
  let range_x := (meanF (lobeP P3.x pts)).sub (meanF (lobeM P3.x pts))
  let range_y := (meanF (lobeP P3.y pts)).sub (meanF (lobeM P3.y pts))
  let range_z := (meanF (lobeP P3.z pts)).sub (meanF (lobeM P3.z pts))
  ⟨(FV.fin (2 * G0)).div range_x,
   (FV.fin (2 * G0)).div range_y,
   (FV.fin (2 * G0)).div range_z⟩

/-- The inertial portion of `Cal::calibrate` (`src/cal.rs:173-245`): the gyro
offset, accelerometer offset and accelerometer scale it computes from the
accumulated samples.  The function is total and returns a plain value — the
source has no error type, so insufficient data flows through the IEEE
divisions rather than being rejected. -/
def calibrateInertial (gyro_pts acc_pts : List P3) : FV3 × FV3 × FV3 :=
  (gyroOffset gyro_pts, accOffset acc_pts, accScale acc_pts)

/-- Model of an `f64` latitude/longitude value: a rational or NaN.  The
longitude `atan2(y,x) + π` and latitude `π/2 − atan2(√(x²+y²), z)` computed
in `sphere_region` (`src/quality.rs:14-15`) are always finite or NaN (NaN
exactly when a component of the input vector is NaN); they are passed to the
bucketing logic as values of this type. -/
inductive FQ where
  | nan : FQ
  | fin (q : ℚ) : FQ
deriving DecidableEq

/-- IEEE `a < b` on possibly-NaN values: false whenever either side is NaN. -/
def FQ.lt : FQ → FQ → Bool
  | .fin a, .fin b => a < b
  | _, _ => false

/-- IEEE `a > b` on possibly-NaN values: false whenever either side is NaN. -/
def FQ.gt : FQ → FQ → Bool
  | .fin a, .fin b => b < a
  | _, _ => false

/-- IEEE `a >= b` on possibly-NaN values: false whenever either side is
NaN. -/
def FQ.ge : FQ → FQ → Bool
  | .fin a, .fin b => b ≤ a
  | _, _ => false

/-- Multiplication of a possibly-NaN value by a finite constant. -/
def FQ.mulC : FQ → ℚ → FQ
  | .nan, _ => .nan
  | .fin a, c => .fin (a * c)

/-- `f64::floor`: NaN floors to NaN. -/
def FQ.floor : FQ → FQ
  | .nan => .nan
  | .fin a => .fin ⌊a⌋

/-- The Rust `as i32` cast on an `f64`: NaN casts to 0, finite values
truncate toward zero and saturate at the `i32` bounds.  It is applied here
only to results of `floor`, where truncation toward zero is the identity on
the integral value. -/
def FQ.i32cast : FQ → ℤ
  | .nan => 0
  | .fin a => max (-(2 ^ 31)) (min (2 ^ 31 - 1) ⌊a⌋)

/-- `sphere_region` (`src/quality.rs:13-53`), embedded on the bucketing side
of the transcendental frontier: `longitude` and `latitude` are the atan2
values computed on lines 14-15 (arbitrary, possibly NaN), and `c15`, `c34`
are the `f64` constants `15.0 / TAU` and `34.0 / TAU` (irrational as reals,
but some fixed rationals as doubles; every theorem below holds for all
values of them).  The branch structure, the clamping of the longitude bin,
and the `> / >= / < ` comparisons follow the source line by line, with IEEE
NaN-comparison and `as i32` cast semantics. -/
def sphere_region (c15 c34 : ℚ) (longitude latitude : FQ) : ℤ :=
  if latitude.gt (.fin 1.37046) then
    0
  else if latitude.lt (.fin (-1.37046)) then
    99
  else if latitude.gt (.fin 0.74776) || latitude.lt (.fin (-0.74776)) then
    let region := ((longitude.mulC c15).floor).i32cast
    let region := if region < 0 then 0 else if 14 < region then 14 else region
    if latitude.gt (.fin 0) then region + 1 else region + 84
  else
    let region := ((longitude.mulC c34).floor).i32cast
    let region := if region < 0 then 0 else if 33 < region then 33 else region
    if latitude.ge (.fin 0) then region + 16 else region + 50

/-- A six-orientation accelerometer sample set: every axis has a non-empty
positive lobe and a non-empty negative lobe (threshold `0.75 · 9.80665 ≈
7.35`), and the Y negative lobe mean (−8) differs from the X negative lobe
mean (−10). -/
def sixOrientationInput : List P3 :=
  [⟨10, 0, 0⟩, ⟨-10, 0, 0⟩, ⟨0, 10, 0⟩, ⟨0, -8, 0⟩, ⟨0, 0, 10⟩, ⟨0, 0, -10⟩]

/-- One step of `nalgebra`'s `argmax` scan (used at `src/cal.rs:354` on the
vector `eigenvalues_re` of eigenvalue real parts): the running best index is
replaced iff the new entry is strictly greater. -/
def amStep (w : Fin 6 → ℚ) (best i : Fin 6) : Fin 6 := if w best < w i then i else best

/-- `e_w.argmax().0` (`src/cal.rs:354`): the scan starts at index 0 and
visits indices 1..5 in order, keeping the first occurrence of the maximal
real part. -/
def argmax6 (w : Fin 6 → ℚ) : Fin 6 := [1, 2, 3, 4, 5].foldl (amStep w) 0

/-- The eigenvector selection of `Cal::fit_mag_ellipsoid`
(`src/cal.rs:354-358`): `v_1` is the eigenvector column belonging to the
eigenvalue with the largest real part, and the whole column is negated iff
its first entry is negative (`if v_1[0] < 0.0 { v_1.neg_mut() }`).  `w` is
the vector of eigenvalue real parts, `V r c` is row `r` of eigenvector
column `c`. -/
def select_v1 (w : Fin 6 → ℚ) (V : Fin 6 → Fin 6 → ℚ) (r : Fin 6) : ℚ :=
  if V 0 (argmax6 w) < 0 then -(V r (argmax6 w)) else V r (argmax6 w)

/-- A concrete eigenvalue-real-part vector for the C9 witness. -/
def wSample : Fin 6 → ℚ := fun i => (i : ℕ)

/-- A concrete eigenvector matrix for the C9 witness. -/
def vSample : Fin 6 → Fin 6 → ℚ := fun _ _ => 1

/-- The transcendental context of the quality scorer, passed explicitly
because `f64` square roots, the `atan2`-based spherical coordinates, the
constants `15.0/TAU` and `34.0/TAU`, and the `cos`/`sin` ideal-direction
table built in `Quality::reset` (`src/quality.rs:115-146`) have no exact
rational counterpart.  Every theorem below holds for every interpretation of
these fields. -/
structure QEnv where
  sqrtQ : ℚ → ℚ
  c15 : ℚ
  c34 : ℚ
  ideal0 : List P3

/-- Model of the `Quality` state (`src/quality.rs:55-77`). -/
structure Quality where
  sphere_dist : List ℤ
  sphere_data : List P3
  sphere_ideal : List P3
  sphereideal_initialized : Bool
  magnitude : List ℚ
  quality_gaps_buffer : ℚ
  quality_variance_buffer : ℚ
  quality_wobble_buffer : ℚ
  quality_gaps_computed : Bool
  quality_variance_computed : Bool
  quality_wobble_computed : Bool

/-- `Quality::default` (`src/quality.rs:79-95`): 100 zeroed regions, empty
magnitude history, all dirty flags clear, all cached buffers `0.0`. -/
def Quality.default : Quality :=
  { sphere_dist := List.replicate 100 0
    sphere_data := List.replicate 100 P3.zero
    sphere_ideal := List.replicate 100 P3.zero
    sphereideal_initialized := false
    magnitude := []
    quality_gaps_buffer := 0
    quality_variance_buffer := 0
    quality_wobble_buffer := 0
    quality_gaps_computed := false
    quality_variance_computed := false
    quality_wobble_computed := false }

/-- The per-region gap penalty of `calc_surface_gap_error`
(`src/quality.rs:180-187`): 0 samples → 1.0, 1 → 0.2, 2 → 0.01, else 0. -/
def penalty (n : ℤ) : ℚ := if n = 0 then 1 else if n = 1 then 0.2 else if n = 2 then 0.01 else 0

/-- The value `calc_surface_gap_error` computes when the cache is stale
(`src/quality.rs:179-188`): the penalty summed over all regions. -/
def gapScore (q : Quality) : ℚ := (q.sphere_dist.map penalty).sum

/-- The value `calc_magnitude_variance_error` computes when the cache is
stale (`src/quality.rs:199-210`): `sqrt(variance)/mean·100` of the magnitude
history.  Division by a zero count is IEEE NaN in the source; here it is the
junk value 0 — the theorems below only use this value on non-empty
histories. -/
def varScore (env : QEnv) (q : Quality) : ℚ :=
  let mean := q.magnitude.sum / (q.magnitude.length : ℚ)
  let variance := (q.magnitude.map (fun m => (m - mean) * (m - mean))).sum /
    (q.magnitude.length : ℚ)
  env.sqrtQ variance / mean * 100

/-- The regions the wobble loop visits (`src/quality.rs:230-246`): each
region's count paired with its data sum and ideal direction, restricted to
counts `> 0`. -/
def wobbleSel (q : Quality) : List (ℤ × P3 × P3) :=
  (q.sphere_dist.zip (q.sphere_data.zip q.sphere_ideal)).filter (fun t => 0 < t.1)

/-- The value `calc_wobble_error` computes when the cache is stale
(`src/quality.rs:224-258`): the averaged offset between observed mean
directions and ideal directions scaled to the mean magnitude, normalized by
the mean magnitude; `100.0` when no region is populated. -/
def wobbleScore (env : QEnv) (q : Quality) : ℚ :=
  let radius := q.magnitude.sum / (q.magnitude.length : ℚ)
  let sel := wobbleSel q
  let n := sel.length
  if n = 0 then 100
  else
    let xoff := (sel.map (fun t => t.2.1.x / (t.1 : ℚ) - t.2.2.x * radius)).sum / (n : ℚ)
    let yoff := (sel.map (fun t => t.2.1.y / (t.1 : ℚ) - t.2.2.y * radius)).sum / (n : ℚ)
    let zoff := (sel.map (fun t => t.2.1.z / (t.1 : ℚ) - t.2.2.z * radius)).sum / (n : ℚ)
    env.sqrtQ (xoff * xoff + yoff * yoff + zoff * zoff) / radius * 100

/-- `Quality::calc_surface_gap_error` (`src/quality.rs:172-192`): returns
the cached buffer when the cache is fresh, otherwise computes the gap sum,
stores it and marks the cache fresh. -/
def Quality.calc_surface_gap_error (q : Quality) : ℚ × Quality :=
  if q.quality_gaps_computed then (q.quality_gaps_buffer, q)
  else (gapScore q,
    { q with quality_gaps_buffer := gapScore q, quality_gaps_computed := true })

/-- `Quality::calc_magnitude_variance_error` (`src/quality.rs:194-213`). -/
def Quality.calc_magnitude_variance_error (env : QEnv) (q : Quality) : ℚ × Quality :=
  if q.quality_variance_computed then (q.quality_variance_buffer, q)
  else (varScore env q,
    { q with quality_variance_buffer := varScore env q, quality_variance_computed := true })

/-- `Quality::calc_wobble_error` (`src/quality.rs:215-259`): returns the
cached buffer when fresh; otherwise, when no region is populated, returns
`100.0` **without touching the buffer or the dirty flag** (the early
`return 100.0` on line 248); otherwise computes the wobble score, stores it
and marks the cache fresh. -/
def Quality.calc_wobble_error (env : QEnv) (q : Quality) : ℚ × Quality :=
  if q.quality_wobble_computed then (q.quality_wobble_buffer, q)
  else if (wobbleSel q).length = 0 then (100, q)
  else (wobbleScore env q,
    { q with quality_wobble_buffer := wobbleScore env q, quality_wobble_computed := true })

/-- `Quality::surface_gap_error` (`src/quality.rs:269-271`): the cached
accessor, a plain read of the buffer. -/
def Quality.surface_gap_error (q : Quality) : ℚ := q.quality_gaps_buffer

/-- `Quality::magnitude_variance_error` (`src/quality.rs:261-263`). -/
def Quality.magnitude_variance_error (q : Quality) : ℚ := q.quality_variance_buffer

/-- `Quality::wobble_error` (`src/quality.rs:265-267`). -/
def Quality.wobble_error (q : Quality) : ℚ := q.quality_wobble_buffer

/-- `Quality::update` (`src/quality.rs:155-170`): push the magnitude, bump
the region count and vector sum at `sphere_region(p)`, clear all three dirty
flags, then immediately recompute all three scores in the source's order
(variance, gap, wobble).  `longitude`/`latitude` are the atan2 coordinates
of `p` (transcendental, hence arguments), and the pushed magnitude is the
square root of the exact sum of squares. -/
def Quality.update (env : QEnv) (q : Quality) (longitude latitude : FQ) (p : P3) : Quality :=
  let region := (sphere_region env.c15 env.c34 longitude latitude).toNat
  let q1 : Quality :=
    { q with
      magnitude := q.magnitude ++ [env.sqrtQ (p.x * p.x + p.y * p.y + p.z * p.z)]
      sphere_dist := q.sphere_dist.set region (q.sphere_dist.getD region 0 + 1)
      sphere_data := q.sphere_data.set region ((q.sphere_data.getD region P3.zero).add p)
      quality_gaps_computed := false
      quality_variance_computed := false
      quality_wobble_computed := false }
  let q2 := (Quality.calc_magnitude_variance_error env q1).2
  let q3 := (Quality.calc_surface_gap_error q2).2
  (Quality.calc_wobble_error env q3).2

/-- `Quality::reset` (`src/quality.rs:109-153`): clear the magnitude
history, zero all region counts and vector sums in place (length-preserving,
as Rust `fill_with`), build the ideal-direction table on first use, and
clear all three dirty flags.  The buffers are left as they are. -/
def Quality.reset (env : QEnv) (q : Quality) : Quality :=
  { q with
    magnitude := []
    sphere_dist := q.sphere_dist.map (fun _ => 0)
    sphere_data := q.sphere_data.map (fun _ => P3.zero)
    sphere_ideal := if q.sphereideal_initialized then q.sphere_ideal else env.ideal0
    sphereideal_initialized := true
    quality_gaps_computed := false
    quality_variance_computed := false
    quality_wobble_computed := false }

/-- The public operations of the quality scorer, used to describe its
reachable states: constructed by `Default`, then any sequence of `update`,
`reset` and the three (re)compute calls. -/
inductive QOp where
  | update (longitude latitude : FQ) (p : P3) : QOp
  | reset : QOp
  | calcGap : QOp
  | calcVar : QOp
  | calcWobble : QOp

/-- Whether an operation is an `update`. -/
def QOp.isUpd : QOp → Bool
  | .update _ _ _ => true
  | _ => false

/-- Apply one public operation to a quality-scorer state. -/
def applyQOp (env : QEnv) (q : Quality) : QOp → Quality
  | .update lo la p => Quality.update env q lo la p
  | .reset => Quality.reset env q
  | .calcGap => (Quality.calc_surface_gap_error q).2
  | .calcVar => (Quality.calc_magnitude_variance_error env q).2
  | .calcWobble => (Quality.calc_wobble_error env q).2

/-- The state after running a sequence of public operations from a freshly
constructed scorer. -/
def runOps (env : QEnv) (l : List QOp) : Quality := l.foldl (applyQOp env) Quality.default

/-- The number of `update` calls since the most recent `reset` in an
operation sequence (since construction when there is no reset). -/
def updatesSinceReset (l : List QOp) : ℕ :=
  l.foldl (fun n op =>
    match op with
    | .update _ _ _ => n + 1
    | .reset => 0
    | _ => n) 0

/-- A concrete transcendental context used by the witnesses. -/
def envSample : QEnv := ⟨fun x => x, 1, 1, List.replicate 100 P3.zero⟩

/-- One step of the `updatesSinceReset` count. -/
def cntStep (n : ℕ) : QOp → ℕ
  | .update _ _ _ => n + 1
  | .reset => 0
  | _ => n

/-- The state invariant carried along every operation sequence: the three
region arrays keep their fixed length 100, region counts are non-negative,
and the total region count equals the magnitude-history length, which is the
running update count. -/
def QAcc (q : Quality) (n : ℕ) : Prop :=
  q.sphere_dist.length = 100 ∧ q.sphere_data.length = 100 ∧ q.sphere_ideal.length = 100 ∧
  (∀ c ∈ q.sphere_dist, 0 ≤ c) ∧ q.sphere_dist.sum = (n : ℤ) ∧ q.magnitude.length = n

/-- `a + NaN = NaN` (the compiled matcher cases on the first argument, so
this is not definitional for symbolic `a`). -/
theorem FV.add_nan (a : FV) : a.add .nan = .nan := by cases a <;> rfl

/-- `a − NaN = NaN`. -/
theorem FV.sub_nan (a : FV) : a.sub .nan = .nan := by cases a <;> rfl

/-- `NaN − b = NaN`. -/
theorem FV.nan_sub (b : FV) : FV.nan.sub b = .nan := by cases b <;> rfl

/-- `NaN + b = NaN`. -/
theorem FV.nan_add (b : FV) : FV.nan.add b = .nan := by cases b <;> rfl

/-- `a / NaN = NaN`. -/
theorem FV.div_nan (a : FV) : a.div .nan = .nan := by cases a <;> rfl

/-- The mean of an empty sample list is `0.0 / 0.0 = NaN`. -/
theorem meanF_nil : meanF [] = .nan := by decide

/-- C1: on the six-orientation input above, the Y-axis scale computed by
`Cal::calibrate` (`src/cal.rs:235-236`) is `2·g₀ / (s_y⁺ − s_x⁻) =
2·g₀ / (10 − (−10))`, i.e. its denominator uses the X-axis negative-lobe
mean, whereas the claimed per-axis formula gives `2·g₀ / (s_y⁺ − s_y⁻) =
2·g₀ / (10 − (−8))`; the two disagree, so the code does not compute the
per-axis scale the claim states. -/
theorem acc_scale_y_uses_x_negative_lobe :
    (accScale sixOrientationInput).y = .fin (2 * G0 / 20) ∧
    (accScaleSpec sixOrientationInput).y = .fin (2 * G0 / 18) ∧
    accScale sixOrientationInput ≠ accScaleSpec sixOrientationInput := by
  refine ⟨?_, ?_, ?_⟩ <;>
    norm_num [accScale, accScaleSpec, sixOrientationInput, meanF, lobeP, lobeM,
      G0_THR, G0, FV.div, FV.sub, FV.neg, FV.add, List.filter, FV3.mk.injEq]

/-- C2 counterexample: `calibrate` invoked with zero gyro samples and zero
accelerometer samples (so every lobe is empty) does not surface any typed
error — its inertial output is NaN in every component (each mean is
`0.0 / 0.0`), contradicting "never returns NaN-filled output". -/
theorem calibrate_nan_on_empty_input :
    calibrateInertial [] [] =
      (⟨.nan, .nan, .nan⟩, ⟨.nan, .nan, .nan⟩, ⟨.nan, .nan, .nan⟩) := by decide

/-- C2 (amended): `calibrate` has no error channel; with insufficient data it
returns NaN-filled values instead of a typed `InsufficientData` error.  With
zero gyro samples the gyro offset is NaN in every component; with an empty
X-axis negative lobe the whole accelerometer scale vector is NaN (all three
denominators use the X negative lobe); with an empty X-axis positive lobe
the X offset and X scale are NaN. -/
theorem calibrate_insufficient_data_gives_nan (g a : List P3) :
    (g = [] → (calibrateInertial g a).1 = ⟨.nan, .nan, .nan⟩) ∧
    (lobeM P3.x a = [] → (calibrateInertial g a).2.2 = ⟨.nan, .nan, .nan⟩) ∧
    (lobeP P3.x a = [] →
      ((calibrateInertial g a).2.1).x = .nan ∧ ((calibrateInertial g a).2.2).x = .nan) := by
  refine ⟨fun hg => ?_, fun hm => ?_, fun hp => ?_⟩
  · subst hg; rfl
  · simp only [calibrateInertial, accScale, hm, meanF_nil, FV.sub_nan, FV.div_nan]
  · simp only [calibrateInertial, accScale, accOffset, hp, meanF_nil, FV.nan_sub,
      FV.nan_add, FV.div_nan, and_self]

/-- Witness for C2 (amended) at the concrete input `g = [], a = []`. -/
theorem calibrate_insufficient_data_gives_nan_witness :
    (calibrateInertial [] []).1 = ⟨.nan, .nan, .nan⟩ ∧
    (calibrateInertial [] []).2.2 = ⟨.nan, .nan, .nan⟩ ∧
    ((calibrateInertial [] []).2.1).x = .nan :=
  ⟨(calibrate_insufficient_data_gives_nan [] []).1 rfl,
   (calibrate_insufficient_data_gives_nan [] []).2.1 rfl,
   ((calibrate_insufficient_data_gives_nan [] []).2.2 rfl).1⟩

/-- C3: on every call of the filtered add operations the EMA state is first
updated to `avg·α + s·(1−α)` (α = 0.98 for gyro, 0.95 for accel) — whether or
not the sample is accepted — and the sample is appended iff
`‖avg − s‖ < τ` against the updated average (τ = 1e-3 gyro, 1e-2 accel). -/
theorem still_add_ema_always_gate_on_norm (c : Cal) (d : P3) :
    ((c.add_gyro_measurement_still d).gyro_points_avg
      = (c.gyro_points_avg.smul 0.98).add (d.smul (1 - 0.98))) ∧
    ((c.add_gyro_measurement_still d).gyro_points
      = if (((c.gyro_points_avg.smul 0.98).add (d.smul (1 - 0.98))).sub d).normLt 0.001
        then c.gyro_points ++ [d] else c.gyro_points) ∧
    ((c.add_acc_measurement_still d).acc_points_avg
      = (c.acc_points_avg.smul 0.95).add (d.smul (1 - 0.95))) ∧
    ((c.add_acc_measurement_still d).acc_points
      = if (((c.acc_points_avg.smul 0.95).add (d.smul (1 - 0.95))).sub d).normLt 0.01
        then c.acc_points ++ [d] else c.acc_points) ∧
    ((c.add_gyro_measurement_still d).acc_points = c.acc_points) ∧
    ((c.add_gyro_measurement_still d).acc_points_avg = c.acc_points_avg) ∧
    ((c.add_acc_measurement_still d).gyro_points = c.gyro_points) ∧
    ((c.add_acc_measurement_still d).gyro_points_avg = c.gyro_points_avg) :=
  ⟨rfl, rfl, rfl, rfl, rfl, rfl, rfl, rfl⟩

/-- C4: each clear operation empties exactly its own sample sequence and
leaves every other field of the state — the other two sequences, both EMA
averages and the cached calibration model — unchanged. -/
theorem clear_measurements_frame (c : Cal) :
    c.clear_gyro_measurements = { c with gyro_points := [] } ∧
    c.clear_accel_measurements = { c with acc_points := [] } ∧
    c.clear_mag_measurements = { c with mag_points := [] } ∧
    (c.clear_gyro_measurements).acc_points = c.acc_points ∧
    (c.clear_gyro_measurements).mag_points = c.mag_points ∧
    (c.clear_gyro_measurements).acc_points_avg = c.acc_points_avg ∧
    (c.clear_gyro_measurements).gyro_points_avg = c.gyro_points_avg ∧
    (c.clear_gyro_measurements).cal_data = c.cal_data ∧
    (c.clear_accel_measurements).gyro_points = c.gyro_points ∧
    (c.clear_accel_measurements).mag_points = c.mag_points ∧
    (c.clear_accel_measurements).acc_points_avg = c.acc_points_avg ∧
    (c.clear_accel_measurements).gyro_points_avg = c.gyro_points_avg ∧
    (c.clear_accel_measurements).cal_data = c.cal_data ∧
    (c.clear_mag_measurements).gyro_points = c.gyro_points ∧
    (c.clear_mag_measurements).acc_points = c.acc_points ∧
    (c.clear_mag_measurements).acc_points_avg = c.acc_points_avg ∧
    (c.clear_mag_measurements).gyro_points_avg = c.gyro_points_avg ∧
    (c.clear_mag_measurements).cal_data = c.cal_data :=
  ⟨rfl, rfl, rfl, rfl, rfl, rfl, rfl, rfl, rfl, rfl, rfl, rfl, rfl, rfl, rfl, rfl, rfl, rfl⟩

/-- Helper: the region index of `sphere_region` lies in `[0, 99]` for every
input, and its `usize` cast is below 100. -/
theorem sphere_region_bounds (c15 c34 : ℚ) (longitude latitude : FQ) :
    0 ≤ sphere_region c15 c34 longitude latitude ∧
    sphere_region c15 c34 longitude latitude ≤ 99 ∧
    (sphere_region c15 c34 longitude latitude).toNat < 100 := by
  simp only [sphere_region]
  split_ifs <;> omega

/-- C7: `sphere_region` is total and bounded: for every value of the scale
constants and every longitude/latitude — including NaN (comparisons false,
`as i32` cast of NaN is 0) and arbitrarily large values (saturating cast
plus clamping) — the region index lies in `[0, 99]`, so indexing the
100-element region arrays in `Quality::update` is always in bounds. -/
theorem sphere_region_total_in_bounds (c15 c34 : ℚ) (longitude latitude : FQ) :
    0 ≤ sphere_region c15 c34 longitude latitude ∧
    sphere_region c15 c34 longitude latitude ≤ 99 ∧
    (sphere_region c15 c34 longitude latitude).toNat < 100 :=
  sphere_region_bounds c15 c34 longitude latitude

/-- The argmax scan never decreases the value at the running best index, and
dominates every visited entry. -/
theorem foldl_amStep_ge (w : Fin 6 → ℚ) :
    ∀ (l : List (Fin 6)) (b : Fin 6),
      w b ≤ w (l.foldl (amStep w) b) ∧ ∀ x ∈ l, w x ≤ w (l.foldl (amStep w) b) := by
  intro l
  induction l with
  | nil => exact fun b => ⟨le_refl _, by simp⟩
  | cons a t ih =>
    intro b
    have hstep_b : w b ≤ w (amStep w b a) := by
      unfold amStep; split_ifs with h
      · exact le_of_lt h
      · exact le_refl _
    have hstep_a : w a ≤ w (amStep w b a) := by
      unfold amStep; split_ifs with h
      · exact le_refl _
      · exact le_of_not_lt h
    refine ⟨le_trans hstep_b (ih (amStep w b a)).1, ?_⟩
    intro x hx
    rcases List.mem_cons.mp hx with hxa | hxt
    · rw [hxa]
      exact le_trans hstep_a (ih (amStep w b a)).1
    · exact (ih (amStep w b a)).2 x hxt

/-- C9: `fit_mag_ellipsoid` selects as `v1` the eigenvector column of the
eigenvalue with the largest real part (the real parts `eigenvalues_re` are
what `argmax` compares, so complex eigenvalues are handled through their
real parts), then negates the whole column iff its first entry is negative;
the resulting `v1` always has `v1[0] ≥ 0`. -/
theorem fit_eigen_selection (w : Fin 6 → ℚ) (V : Fin 6 → Fin 6 → ℚ) :
    (∀ i, w i ≤ w (argmax6 w)) ∧
    0 ≤ select_v1 w V 0 ∧
    (V 0 (argmax6 w) < 0 → ∀ r, select_v1 w V r = -(V r (argmax6 w))) ∧
    (0 ≤ V 0 (argmax6 w) → ∀ r, select_v1 w V r = V r (argmax6 w)) := by
  refine ⟨?_, ?_, ?_, ?_⟩
  · intro i
    have hmem : i = 0 ∨ i ∈ ([1, 2, 3, 4, 5] : List (Fin 6)) := by
      fin_cases i <;> simp
    rcases hmem with h0 | hm
    · subst h0; exact (foldl_amStep_ge w [1, 2, 3, 4, 5] 0).1
    · exact (foldl_amStep_ge w [1, 2, 3, 4, 5] 0).2 i hm
  · unfold select_v1
    split_ifs with h
    · linarith
    · exact le_of_not_lt h
  · intro h r
    unfold select_v1
    rw [if_pos h]
  · intro h r
    unfold select_v1
    rw [if_neg (not_lt.mpr h)]

/-- Witness for C9 at a concrete eigenvalue vector and eigenvector matrix:
the first entry of the selected column is non-negative, so the column is
returned unflipped. -/
theorem fit_eigen_selection_witness :
    0 ≤ vSample 0 (argmax6 wSample) ∧
    select_v1 wSample vSample 0 = vSample 0 (argmax6 wSample) :=
  ⟨by norm_num [vSample],
   (fit_eigen_selection wSample vSample).2.2.2 (by norm_num [vSample]) 0⟩

/-- `updatesSinceReset` is the fold of `cntStep`. -/
theorem updatesSinceReset_eq_foldl (l : List QOp) :
    updatesSinceReset l = l.foldl cntStep 0 := rfl

/-- Setting an in-range entry changes a list sum by the difference between
the new and the old entry. -/
theorem list_sum_set {M : Type} [AddCommGroup M] :
    ∀ (l : List M) (i : ℕ) (v : M) (h : i < l.length),
      (l.set i v).sum = l.sum - l.get ⟨i, h⟩ + v := by
  intro l
  induction l with
  | nil => intro i v h; simp at h
  | cons a t ih =>
    intro i v h
    cases i with
    | zero => simp [List.set]; abel
    | succ n =>
      have hn : n < t.length := Nat.lt_of_succ_lt_succ h
      simp only [List.set, List.sum_cons, List.get_cons_succ]
      rw [ih n v hn]
      abel

/-- The gap penalty never increases when a non-negative region count is
incremented. -/
theorem penalty_succ_le (x : ℤ) (hx : 0 ≤ x) : penalty (x + 1) ≤ penalty x := by
  unfold penalty
  split_ifs <;> first | omega | norm_num

/-- `calc_surface_gap_error` only touches the gap buffer and the gap dirty
flag. -/
theorem calc_gap_preserves (q : Quality) :
    ((Quality.calc_surface_gap_error q).2).sphere_dist = q.sphere_dist ∧
    ((Quality.calc_surface_gap_error q).2).sphere_data = q.sphere_data ∧
    ((Quality.calc_surface_gap_error q).2).sphere_ideal = q.sphere_ideal ∧
    ((Quality.calc_surface_gap_error q).2).magnitude = q.magnitude ∧
    ((Quality.calc_surface_gap_error q).2).sphereideal_initialized = q.sphereideal_initialized ∧
    ((Quality.calc_surface_gap_error q).2).quality_variance_buffer = q.quality_variance_buffer ∧
    ((Quality.calc_surface_gap_error q).2).quality_variance_computed = q.quality_variance_computed ∧
    ((Quality.calc_surface_gap_error q).2).quality_wobble_buffer = q.quality_wobble_buffer ∧
    ((Quality.calc_surface_gap_error q).2).quality_wobble_computed = q.quality_wobble_computed := by
  unfold Quality.calc_surface_gap_error
  split_ifs <;> exact ⟨rfl, rfl, rfl, rfl, rfl, rfl, rfl, rfl, rfl⟩

/-- `calc_magnitude_variance_error` only touches the variance buffer and the
variance dirty flag. -/
theorem calc_var_preserves (env : QEnv) (q : Quality) :
    ((Quality.calc_magnitude_variance_error env q).2).sphere_dist = q.sphere_dist ∧
    ((Quality.calc_magnitude_variance_error env q).2).sphere_data = q.sphere_data ∧
    ((Quality.calc_magnitude_variance_error env q).2).sphere_ideal = q.sphere_ideal ∧
    ((Quality.calc_magnitude_variance_error env q).2).magnitude = q.magnitude ∧
    ((Quality.calc_magnitude_variance_error env q).2).sphereideal_initialized
      = q.sphereideal_initialized ∧
    ((Quality.calc_magnitude_variance_error env q).2).quality_gaps_buffer
      = q.quality_gaps_buffer ∧
    ((Quality.calc_magnitude_variance_error env q).2).quality_gaps_computed
      = q.quality_gaps_computed ∧
    ((Quality.calc_magnitude_variance_error env q).2).quality_wobble_buffer
      = q.quality_wobble_buffer ∧
    ((Quality.calc_magnitude_variance_error env q).2).quality_wobble_computed
      = q.quality_wobble_computed := by
  unfold Quality.calc_magnitude_variance_error
  split_ifs <;> exact ⟨rfl, rfl, rfl, rfl, rfl, rfl, rfl, rfl, rfl⟩

/-- `calc_wobble_error` only touches the wobble buffer and the wobble dirty
flag. -/
theorem calc_wobble_preserves (env : QEnv) (q : Quality) :
    ((Quality.calc_wobble_error env q).2).sphere_dist = q.sphere_dist ∧
    ((Quality.calc_wobble_error env q).2).sphere_data = q.sphere_data ∧
    ((Quality.calc_wobble_error env q).2).sphere_ideal = q.sphere_ideal ∧
    ((Quality.calc_wobble_error env q).2).magnitude = q.magnitude ∧
    ((Quality.calc_wobble_error env q).2).sphereideal_initialized
      = q.sphereideal_initialized ∧
    ((Quality.calc_wobble_error env q).2).quality_gaps_buffer = q.quality_gaps_buffer ∧
    ((Quality.calc_wobble_error env q).2).quality_gaps_computed = q.quality_gaps_computed ∧
    ((Quality.calc_wobble_error env q).2).quality_variance_buffer
      = q.quality_variance_buffer ∧
    ((Quality.calc_wobble_error env q).2).quality_variance_computed
      = q.quality_variance_computed := by
  unfold Quality.calc_wobble_error
  split_ifs <;> exact ⟨rfl, rfl, rfl, rfl, rfl, rfl, rfl, rfl, rfl⟩

/-- Stale-cache behaviour of `calc_surface_gap_error`. -/
theorem calc_gap_stale (q : Quality) (h : q.quality_gaps_computed = false) :
    Quality.calc_surface_gap_error q =
      (gapScore q,
        { q with quality_gaps_buffer := gapScore q, quality_gaps_computed := true }) := by
  unfold Quality.calc_surface_gap_error
  rw [h]
  simp

/-- Fresh-cache behaviour of `calc_surface_gap_error`. -/
theorem calc_gap_fresh (q : Quality) (h : q.quality_gaps_computed = true) :
    Quality.calc_surface_gap_error q = (q.quality_gaps_buffer, q) := by
  unfold Quality.calc_surface_gap_error
  rw [h]
  simp

/-- Stale-cache behaviour of `calc_magnitude_variance_error`. -/
theorem calc_var_stale (env : QEnv) (q : Quality) (h : q.quality_variance_computed = false) :
    Quality.calc_magnitude_variance_error env q =
      (varScore env q,
        { q with quality_variance_buffer := varScore env q,
                 quality_variance_computed := true }) := by
  unfold Quality.calc_magnitude_variance_error
  rw [h]
  simp

/-- Fresh-cache behaviour of `calc_magnitude_variance_error`. -/
theorem calc_var_fresh (env : QEnv) (q : Quality) (h : q.quality_variance_computed = true) :
    Quality.calc_magnitude_variance_error env q = (q.quality_variance_buffer, q) := by
  unfold Quality.calc_magnitude_variance_error
  rw [h]
  simp

/-- Fresh-cache behaviour of `calc_wobble_error`. -/
theorem calc_wobble_fresh (env : QEnv) (q : Quality) (h : q.quality_wobble_computed = true) :
    Quality.calc_wobble_error env q = (q.quality_wobble_buffer, q) := by
  unfold Quality.calc_wobble_error
  rw [h]
  simp

/-- The early `return 100.0` of `calc_wobble_error`: with a stale cache and
no populated region the call returns `100.0` and leaves the state — buffer
and dirty flag included — untouched. -/
theorem calc_wobble_stale_empty (env : QEnv) (q : Quality)
    (h : q.quality_wobble_computed = false) (hs : (wobbleSel q).length = 0) :
    Quality.calc_wobble_error env q = (100, q) := by
  unfold Quality.calc_wobble_error
  rw [h, hs]
  simp

/-- Stale-cache behaviour of `calc_wobble_error` with at least one populated
region. -/
theorem calc_wobble_stale (env : QEnv) (q : Quality)
    (h : q.quality_wobble_computed = false) (hs : (wobbleSel q).length ≠ 0) :
    Quality.calc_wobble_error env q =
      (wobbleScore env q,
        { q with quality_wobble_buffer := wobbleScore env q,
                 quality_wobble_computed := true }) := by
  unfold Quality.calc_wobble_error
  rw [h, if_neg hs]
  simp

/-- A state in which every region count is zero selects no region for the
wobble loop. -/
theorem wobbleSel_eq_nil {q : Quality} (h : ∀ c ∈ q.sphere_dist, c = 0) :
    wobbleSel q = [] := by
  unfold wobbleSel
  rw [List.filter_eq_nil_iff]
  intro t ht
  have h1 : t.1 ∈ q.sphere_dist := (List.of_mem_zip ht).1
  have := h t.1 h1
  simp [this]

/-- Running the three recomputations (variance, gap, wobble — the order
`Quality::update` uses) on a state with all caches stale and at least one
populated region leaves the raw data unchanged and stores in each buffer
exactly the score of the resulting state. -/
theorem recompute_after_stale (env : QEnv) (s : Quality)
    (h1 : s.quality_variance_computed = false)
    (h2 : s.quality_gaps_computed = false)
    (h3 : s.quality_wobble_computed = false)
    (h4 : (wobbleSel s).length ≠ 0) :
    ((Quality.calc_wobble_error env ((Quality.calc_surface_gap_error
        ((Quality.calc_magnitude_variance_error env s).2)).2)).2).quality_gaps_buffer
      = gapScore ((Quality.calc_wobble_error env ((Quality.calc_surface_gap_error
        ((Quality.calc_magnitude_variance_error env s).2)).2)).2) ∧
    ((Quality.calc_wobble_error env ((Quality.calc_surface_gap_error
        ((Quality.calc_magnitude_variance_error env s).2)).2)).2).quality_variance_buffer
      = varScore env ((Quality.calc_wobble_error env ((Quality.calc_surface_gap_error
        ((Quality.calc_magnitude_variance_error env s).2)).2)).2) ∧
    ((Quality.calc_wobble_error env ((Quality.calc_surface_gap_error
        ((Quality.calc_magnitude_variance_error env s).2)).2)).2).quality_wobble_buffer
      = wobbleScore env ((Quality.calc_wobble_error env ((Quality.calc_surface_gap_error
        ((Quality.calc_magnitude_variance_error env s).2)).2)).2) ∧
    ((Quality.calc_wobble_error env ((Quality.calc_surface_gap_error
        ((Quality.calc_magnitude_variance_error env s).2)).2)).2).sphere_dist
      = s.sphere_dist ∧
    ((Quality.calc_wobble_error env ((Quality.calc_surface_gap_error
        ((Quality.calc_magnitude_variance_error env s).2)).2)).2).sphere_data
      = s.sphere_data ∧
    ((Quality.calc_wobble_error env ((Quality.calc_surface_gap_error
        ((Quality.calc_magnitude_variance_error env s).2)).2)).2).sphere_ideal
      = s.sphere_ideal ∧
    ((Quality.calc_wobble_error env ((Quality.calc_surface_gap_error
        ((Quality.calc_magnitude_variance_error env s).2)).2)).2).magnitude
      = s.magnitude := by
  simp only [wobbleSel] at h4
  simp only [Quality.calc_magnitude_variance_error, Quality.calc_surface_gap_error,
    Quality.calc_wobble_error, wobbleSel, h1, h2, h3, Bool.false_eq_true, if_false]
  rw [if_neg h4]
  exact ⟨rfl, rfl, rfl, rfl, rfl, rfl, rfl⟩

/-- After `Quality::update` each cached buffer holds exactly the score of
the resulting state: the update clears all three dirty flags and immediately
recomputes all three scores, and the freshly incremented region guarantees
the wobble loop visits at least one region, so the wobble buffer is written
too. -/
theorem update_buffers_eq_scores (env : QEnv) (q : Quality) (lo la : FQ) (p : P3)
    (hd : q.sphere_dist.length = 100) (ha : q.sphere_data.length = 100)
    (hi : q.sphere_ideal.length = 100) (hnn : ∀ c ∈ q.sphere_dist, 0 ≤ c) :
    (Quality.update env q lo la p).quality_gaps_buffer
      = gapScore (Quality.update env q lo la p) ∧
    (Quality.update env q lo la p).quality_variance_buffer
      = varScore env (Quality.update env q lo la p) ∧
    (Quality.update env q lo la p).quality_wobble_buffer
      = wobbleScore env (Quality.update env q lo la p) := by
  have hrlt : (sphere_region env.c15 env.c34 lo la).toNat < 100 :=
    (sphere_region_bounds env.c15 env.c34 lo la).2.2
  set r : ℕ := (sphere_region env.c15 env.c34 lo la).toNat with hrdef
  have hrd : r < q.sphere_dist.length := by rw [hd]; exact hrlt
  set L : List ℤ := q.sphere_dist.set r (q.sphere_dist.getD r 0 + 1) with hLdef
  set D : List P3 := q.sphere_data.set r ((q.sphere_data.getD r P3.zero).add p) with hDdef
  set M : List ℚ := q.magnitude ++ [env.sqrtQ (p.x * p.x + p.y * p.y + p.z * p.z)] with hMdef
  set q1 : Quality :=
    { q with
      magnitude := M
      sphere_dist := L
      sphere_data := D
      quality_gaps_computed := false
      quality_variance_computed := false
      quality_wobble_computed := false } with hq1def
  have hup : Quality.update env q lo la p =
      (Quality.calc_wobble_error env ((Quality.calc_surface_gap_error
        ((Quality.calc_magnitude_variance_error env q1).2)).2)).2 := rfl
  have hlen1 : L.length = 100 := by rw [hLdef, List.length_set, hd]
  have hlen2 : D.length = 100 := by rw [hDdef, List.length_set, ha]
  have hzlen : (L.zip (D.zip q.sphere_ideal)).length = 100 := by
    rw [List.length_zip, List.length_zip, hlen1, hlen2, hi]
    simp
  have hrz : r < (L.zip (D.zip q.sphere_ideal)).length := by rw [hzlen]; exact hrlt
  have hrz1 : r < L.length := by rw [hlen1]; exact hrlt
  have hget1 : L.get ⟨r, hrz1⟩ = q.sphere_dist.getD r 0 + 1 := by
    simp [hLdef, List.get_eq_getElem, List.getElem_set]
  have hpos : 0 < L.get ⟨r, hrz1⟩ := by
    rw [hget1, List.getD_eq_getElem q.sphere_dist 0 hrd]
    have := hnn _ (List.getElem_mem hrd)
    omega
  have ht1 : 0 < ((L.zip (D.zip q.sphere_ideal)).get ⟨r, hrz⟩).1 := by
    have he : ((L.zip (D.zip q.sphere_ideal)).get ⟨r, hrz⟩).1 = L.get ⟨r, hrz1⟩ := by
      simp [List.get_eq_getElem, List.getElem_zip]
    rw [he]
    exact hpos
  have hsel : (wobbleSel q1).length ≠ 0 := by
    have htmem : (L.zip (D.zip q.sphere_ideal)).get ⟨r, hrz⟩ ∈ wobbleSel q1 := by
      show (L.zip (D.zip q.sphere_ideal)).get ⟨r, hrz⟩
          ∈ (L.zip (D.zip q.sphere_ideal)).filter (fun t => 0 < t.1)
      exact List.mem_filter.mpr ⟨List.get_mem _ _ _, by simpa using ht1⟩
    intro h0
    rw [List.length_eq_zero] at h0
    rw [h0] at htmem
    exact List.not_mem_nil _ htmem
  rw [hup]
  obtain ⟨g1, g2, g3, _, _, _, _⟩ := recompute_after_stale env q1 rfl rfl rfl hsel
  exact ⟨g1, g2, g3⟩

/-- `Quality.update` unfolded: the raw-state mutation followed by the three
recomputations in source order. -/
theorem update_unfold (env : QEnv) (q : Quality) (lo la : FQ) (p : P3) :
    Quality.update env q lo la p =
      (Quality.calc_wobble_error env ((Quality.calc_surface_gap_error
        ((Quality.calc_magnitude_variance_error env
          { q with
            magnitude := q.magnitude ++ [env.sqrtQ (p.x * p.x + p.y * p.y + p.z * p.z)]
            sphere_dist := q.sphere_dist.set (sphere_region env.c15 env.c34 lo la).toNat
              (q.sphere_dist.getD (sphere_region env.c15 env.c34 lo la).toNat 0 + 1)
            sphere_data := q.sphere_data.set (sphere_region env.c15 env.c34 lo la).toNat
              ((q.sphere_data.getD (sphere_region env.c15 env.c34 lo la).toNat P3.zero).add p)
            quality_gaps_computed := false
            quality_variance_computed := false
            quality_wobble_computed := false }).2)).2)).2 := rfl

/-- The raw fields of the state after `Quality.update`: the magnitude is
appended, the hit region's count and vector sum are bumped, the ideal table
and its flag are untouched. -/
theorem update_raw (env : QEnv) (q : Quality) (lo la : FQ) (p : P3) :
    (Quality.update env q lo la p).sphere_dist
      = q.sphere_dist.set (sphere_region env.c15 env.c34 lo la).toNat
          (q.sphere_dist.getD (sphere_region env.c15 env.c34 lo la).toNat 0 + 1) ∧
    (Quality.update env q lo la p).sphere_data
      = q.sphere_data.set (sphere_region env.c15 env.c34 lo la).toNat
          ((q.sphere_data.getD (sphere_region env.c15 env.c34 lo la).toNat P3.zero).add p) ∧
    (Quality.update env q lo la p).sphere_ideal = q.sphere_ideal ∧
    (Quality.update env q lo la p).magnitude
      = q.magnitude ++ [env.sqrtQ (p.x * p.x + p.y * p.y + p.z * p.z)] ∧
    (Quality.update env q lo la p).sphereideal_initialized = q.sphereideal_initialized := by
  refine ⟨?_, ?_, ?_, ?_, ?_⟩
  · rw [update_unfold, (calc_wobble_preserves env _).1, (calc_gap_preserves _).1,
      (calc_var_preserves env _).1]
  · rw [update_unfold, (calc_wobble_preserves env _).2.1, (calc_gap_preserves _).2.1,
      (calc_var_preserves env _).2.1]
  · rw [update_unfold, (calc_wobble_preserves env _).2.2.1, (calc_gap_preserves _).2.2.1,
      (calc_var_preserves env _).2.2.1]
  · rw [update_unfold, (calc_wobble_preserves env _).2.2.2.1, (calc_gap_preserves _).2.2.2.1,
      (calc_var_preserves env _).2.2.2.1]
  · rw [update_unfold, (calc_wobble_preserves env _).2.2.2.2.1,
      (calc_gap_preserves _).2.2.2.2.1, (calc_var_preserves env _).2.2.2.2.1]

/-- Every single public operation preserves the running state invariant. -/
theorem QAcc_step (env : QEnv) (hlen : env.ideal0.length = 100)
    (q : Quality) (n : ℕ) (op : QOp) (h : QAcc q n) :
    QAcc (applyQOp env q op) (cntStep n op) := by
  obtain ⟨h1, h2, h3, h4, h5, h6⟩ := h
  cases op with
  | update lo la p =>
    obtain ⟨u1, u2, u3, u4, u5⟩ := update_raw env q lo la p
    have hrlt : (sphere_region env.c15 env.c34 lo la).toNat < 100 :=
      (sphere_region_bounds env.c15 env.c34 lo la).2.2
    have hrd : (sphere_region env.c15 env.c34 lo la).toNat < q.sphere_dist.length := by
      rw [h1]; exact hrlt
    refine ⟨?_, ?_, ?_, ?_, ?_, ?_⟩
    · show (Quality.update env q lo la p).sphere_dist.length = 100
      rw [u1, List.length_set, h1]
    · show (Quality.update env q lo la p).sphere_data.length = 100
      rw [u2, List.length_set, h2]
    · show (Quality.update env q lo la p).sphere_ideal.length = 100
      rw [u3, h3]
    · show ∀ c ∈ (Quality.update env q lo la p).sphere_dist, 0 ≤ c
      rw [u1]
      intro c hc
      rcases List.mem_or_eq_of_mem_set hc with hmem | heq
      · exact h4 c hmem
      · have := h4 _ (List.getElem_mem hrd)
        rw [List.getD_eq_getElem q.sphere_dist 0 hrd] at heq
        omega
    · show (Quality.update env q lo la p).sphere_dist.sum = ((cntStep n (QOp.update lo la p)) : ℤ)
      rw [u1, list_sum_set q.sphere_dist _ _ hrd,
        List.getD_eq_getElem q.sphere_dist 0 hrd]
      show q.sphere_dist.sum - q.sphere_dist.get ⟨_, hrd⟩ +
        (q.sphere_dist.get ⟨_, hrd⟩ + 1) = ((n + 1 : ℕ) : ℤ)
      rw [h5]
      push_cast
      ring
    · show (Quality.update env q lo la p).magnitude.length = n + 1
      rw [u4, List.length_append, h6]
      rfl
  | reset =>
    refine ⟨?_, ?_, ?_, ?_, ?_, ?_⟩
    · show (q.sphere_dist.map (fun _ => (0 : ℤ))).length = 100
      rw [List.length_map, h1]
    · show (q.sphere_data.map (fun _ => P3.zero)).length = 100
      rw [List.length_map, h2]
    · show (if q.sphereideal_initialized then q.sphere_ideal else env.ideal0).length = 100
      split_ifs
      · exact h3
      · exact hlen
    · show ∀ c ∈ q.sphere_dist.map (fun _ => (0 : ℤ)), 0 ≤ c
      intro c hc
      rcases List.mem_map.mp hc with ⟨_, _, hz⟩
      omega
    · show (q.sphere_dist.map (fun _ => (0 : ℤ))).sum = ((0 : ℕ) : ℤ)
      rw [List.map_const', List.sum_replicate]
      simp
    · rfl
  | calcGap =>
    obtain ⟨w1, w2, w3, w4, _, _, _, _, _⟩ := calc_gap_preserves q
    exact ⟨by rw [show (applyQOp env q QOp.calcGap).sphere_dist = q.sphere_dist from w1, h1],
      by rw [show (applyQOp env q QOp.calcGap).sphere_data = q.sphere_data from w2, h2],
      by rw [show (applyQOp env q QOp.calcGap).sphere_ideal = q.sphere_ideal from w3, h3],
      by rw [show (applyQOp env q QOp.calcGap).sphere_dist = q.sphere_dist from w1]; exact h4,
      by rw [show (applyQOp env q QOp.calcGap).sphere_dist = q.sphere_dist from w1]; exact h5,
      by rw [show (applyQOp env q QOp.calcGap).magnitude = q.magnitude from w4, h6]; rfl⟩
  | calcVar =>
    obtain ⟨w1, w2, w3, w4, _, _, _, _, _⟩ := calc_var_preserves env q
    exact ⟨by rw [show (applyQOp env q QOp.calcVar).sphere_dist = q.sphere_dist from w1, h1],
      by rw [show (applyQOp env q QOp.calcVar).sphere_data = q.sphere_data from w2, h2],
      by rw [show (applyQOp env q QOp.calcVar).sphere_ideal = q.sphere_ideal from w3, h3],
      by rw [show (applyQOp env q QOp.calcVar).sphere_dist = q.sphere_dist from w1]; exact h4,
      by rw [show (applyQOp env q QOp.calcVar).sphere_dist = q.sphere_dist from w1]; exact h5,
      by rw [show (applyQOp env q QOp.calcVar).magnitude = q.magnitude from w4, h6]; rfl⟩
  | calcWobble =>
    obtain ⟨w1, w2, w3, w4, _, _, _, _, _⟩ := calc_wobble_preserves env q
    exact ⟨by rw [show (applyQOp env q QOp.calcWobble).sphere_dist = q.sphere_dist from w1, h1],
      by rw [show (applyQOp env q QOp.calcWobble).sphere_data = q.sphere_data from w2, h2],
      by rw [show (applyQOp env q QOp.calcWobble).sphere_ideal = q.sphere_ideal from w3, h3],
      by rw [show (applyQOp env q QOp.calcWobble).sphere_dist = q.sphere_dist from w1]; exact h4,
      by rw [show (applyQOp env q QOp.calcWobble).sphere_dist = q.sphere_dist from w1]; exact h5,
      by rw [show (applyQOp env q QOp.calcWobble).magnitude = q.magnitude from w4, h6]; rfl⟩

/-- The state invariant holds along every fold of public operations. -/
theorem foldl_QAcc (env : QEnv) (hlen : env.ideal0.length = 100) :
    ∀ (l : List QOp) (q : Quality) (n : ℕ), QAcc q n →
      QAcc (l.foldl (applyQOp env) q) (l.foldl cntStep n) := by
  intro l
  induction l with
  | nil => exact fun q n h => h
  | cons op t ih =>
    intro q n h
    exact ih (applyQOp env q op) (cntStep n op) (QAcc_step env hlen q n op h)

/-- The freshly constructed scorer satisfies the invariant with count 0. -/
theorem QAcc_default : QAcc Quality.default 0 := by
  refine ⟨by simp [Quality.default], by simp [Quality.default], by simp [Quality.default],
    ?_, by simp [Quality.default], by simp [Quality.default]⟩
  intro c hc
  rw [Quality.default] at hc
  simp only [List.mem_replicate] at hc
  omega

/-- C10: in every reachable scorer state — freshly constructed, or after any
sequence of updates, resets and score calls — the sum of the 100 region
counts equals the length of the magnitude history, which equals the number
of `update` calls since the last `reset` (or since construction), and every
region count is non-negative. -/
theorem quality_region_count_invariant (env : QEnv) (l : List QOp)
    (hlen : env.ideal0.length = 100) :
    (runOps env l).sphere_dist.sum = ((runOps env l).magnitude.length : ℤ) ∧
    (runOps env l).magnitude.length = updatesSinceReset l ∧
    ∀ c ∈ (runOps env l).sphere_dist, 0 ≤ c := by
  obtain ⟨_, _, _, h4, h5, h6⟩ := foldl_QAcc env hlen l Quality.default 0 QAcc_default
  refine ⟨?_, ?_, h4⟩
  · rw [show (runOps env l).magnitude.length = l.foldl cntStep 0 from h6]
    exact h5
  · rw [updatesSinceReset_eq_foldl]
    exact h6

/-- Witness for C10 at a concrete environment and operation sequence. -/
theorem quality_region_count_invariant_witness :
    envSample.ideal0.length = 100 ∧
    (runOps envSample [QOp.reset]).magnitude.length = updatesSinceReset [QOp.reset] :=
  ⟨by simp [envSample],
   (quality_region_count_invariant envSample [QOp.reset] (by simp [envSample])).2.1⟩

/-- C5: the surface-gap error never increases under `update`: the update
bumps exactly one region count, and the gap penalty is non-increasing in a
non-negative count.  The hypotheses say the state has the fixed 100 regions
with non-negative counts, which holds in every reachable state. -/
theorem surface_gap_error_monotone (env : QEnv) (q : Quality) (lo la : FQ) (p : P3)
    (hd : q.sphere_dist.length = 100) (hnn : ∀ c ∈ q.sphere_dist, 0 ≤ c) :
    gapScore (Quality.update env q lo la p) ≤ gapScore q := by
  obtain ⟨u1, _, _, _, _⟩ := update_raw env q lo la p
  set r : ℕ := (sphere_region env.c15 env.c34 lo la).toNat with hrdef
  have hrlt : r < 100 := (sphere_region_bounds env.c15 env.c34 lo la).2.2
  have hrd : r < q.sphere_dist.length := by rw [hd]; exact hrlt
  have hmapl : r < (q.sphere_dist.map penalty).length := by
    rw [List.length_map]; exact hrd
  unfold gapScore
  rw [u1, List.getD_eq_getElem q.sphere_dist 0 hrd, List.map_set,
    list_sum_set _ _ _ hmapl]
  have hg : (q.sphere_dist.map penalty).get ⟨r, hmapl⟩
      = penalty q.sphere_dist[r] := by
    simp [List.get_eq_getElem]
  rw [hg]
  have hp := penalty_succ_le q.sphere_dist[r] (hnn _ (List.getElem_mem hrd))
  linarith

/-- Witness for C5 at the freshly constructed scorer and a concrete point. -/
theorem surface_gap_error_monotone_witness :
    Quality.default.sphere_dist.length = 100 ∧
    (∀ c ∈ Quality.default.sphere_dist, 0 ≤ c) ∧
    gapScore (Quality.update envSample Quality.default (.fin 0) (.fin 0) ⟨0, 0, 0⟩)
      ≤ gapScore Quality.default :=
  ⟨by decide, by decide,
   surface_gap_error_monotone envSample Quality.default (.fin 0) (.fin 0) ⟨0, 0, 0⟩
     (by decide) (by decide)⟩

/-- Along an update-free operation sequence the wobble cache stays stale and
every region count stays zero. -/
theorem noUpdate_K (env : QEnv) :
    ∀ (l : List QOp) (q : Quality),
      (∀ op ∈ l, op.isUpd = false) →
      q.quality_wobble_computed = false → (∀ c ∈ q.sphere_dist, c = 0) →
      (l.foldl (applyQOp env) q).quality_wobble_computed = false ∧
        ∀ c ∈ (l.foldl (applyQOp env) q).sphere_dist, c = 0 := by
  intro l
  induction l with
  | nil => exact fun q _ h1 h2 => ⟨h1, h2⟩
  | cons op t ih =>
    intro q hall h1 h2
    have hop : op.isUpd = false := hall op (List.mem_cons_self op t)
    have htall : ∀ o ∈ t, o.isUpd = false := fun o ho => hall o (List.mem_cons_of_mem _ ho)
    have hstep : (applyQOp env q op).quality_wobble_computed = false ∧
        ∀ c ∈ (applyQOp env q op).sphere_dist, c = 0 := by
      cases op with
      | update lo la p => simp [QOp.isUpd] at hop
      | reset =>
        constructor
        · rfl
        · intro c hc
          rcases List.mem_map.mp hc with ⟨_, _, hz⟩
          exact hz.symm
      | calcGap =>
        obtain ⟨w1, _, _, _, _, _, _, _, w9⟩ := calc_gap_preserves q
        exact ⟨by
            rw [show (applyQOp env q QOp.calcGap).quality_wobble_computed
              = q.quality_wobble_computed from w9]
            exact h1,
          by
            rw [show (applyQOp env q QOp.calcGap).sphere_dist = q.sphere_dist from w1]
            exact h2⟩
      | calcVar =>
        obtain ⟨w1, _, _, _, _, _, _, _, w9⟩ := calc_var_preserves env q
        exact ⟨by
            rw [show (applyQOp env q QOp.calcVar).quality_wobble_computed
              = q.quality_wobble_computed from w9]
            exact h1,
          by
            rw [show (applyQOp env q QOp.calcVar).sphere_dist = q.sphere_dist from w1]
            exact h2⟩
      | calcWobble =>
        have hempty : (wobbleSel q).length = 0 := by
          rw [wobbleSel_eq_nil h2]
          rfl
        have he := calc_wobble_stale_empty env q h1 hempty
        constructor
        · show ((Quality.calc_wobble_error env q).2).quality_wobble_computed = false
          rw [he]
          exact h1
        · show ∀ c ∈ ((Quality.calc_wobble_error env q).2).sphere_dist, c = 0
          rw [he]
          exact h2
    exact ih (applyQOp env q op) htall hstep.1 hstep.2

/-- C6: a quality scorer on which `update` has never been called — any state
reached from construction by resets and score calls alone — computes a
wobble error of exactly `100.0`: `calc_wobble_error` finds no populated
region and returns the sentinel. -/
theorem wobble_sentinel_without_updates (env : QEnv) (l : List QOp)
    (h : ∀ op ∈ l, op.isUpd = false) :
    (Quality.calc_wobble_error env (runOps env l)).1 = 100 := by
  have hzero : ∀ c ∈ Quality.default.sphere_dist, c = 0 := by
    intro c hc
    rw [Quality.default] at hc
    simp only [List.mem_replicate] at hc
    exact hc.2
  obtain ⟨h1, h2⟩ := noUpdate_K env l Quality.default h rfl hzero
  have hempty : (wobbleSel (l.foldl (applyQOp env) Quality.default)).length = 0 := by
    rw [wobbleSel_eq_nil h2]
    rfl
  show (Quality.calc_wobble_error env (l.foldl (applyQOp env) Quality.default)).1 = 100
  rw [calc_wobble_stale_empty env _ h1 hempty]

/-- Witness for C6 at a concrete update-free operation sequence. -/
theorem wobble_sentinel_without_updates_witness :
    (∀ op ∈ [QOp.reset, QOp.calcGap], op.isUpd = false) ∧
    (Quality.calc_wobble_error envSample (runOps envSample [QOp.reset, QOp.calcGap])).1
      = 100 :=
  ⟨by decide, wobble_sentinel_without_updates envSample [QOp.reset, QOp.calcGap] (by decide)⟩

/-- C8 counterexample: the freshly constructed scorer is a reachable state
(it is `runOps env []`), its cached accessor `wobble_error()` returns the
untouched buffer `0.0`, yet a fresh recomputation of the wobble score from
the same raw state yields the sentinel `100.0` — the caching is visible to
callers. -/
theorem wobble_cache_visible_at_default :
    runOps envSample [] = Quality.default ∧
    Quality.wobble_error Quality.default = 0 ∧
    wobbleScore envSample Quality.default = 100 ∧
    Quality.wobble_error Quality.default ≠ wobbleScore envSample Quality.default :=
  ⟨rfl, rfl, by decide, by decide⟩

/-- C8 (amended): the dirty-flag caching is invisible in every reachable
state in which at least one `update` has happened since the last `reset`
(or since construction): there all three cached accessors return exactly the
recomputed scores of the current raw state.  (In states with no update since
the last reset — construction included — the wobble and variance accessors
can return stale buffers, as the counterexample shows.) -/
theorem cached_scores_valid_after_update (env : QEnv) (l : List QOp)
    (hlen : env.ideal0.length = 100) (hl : 1 ≤ updatesSinceReset l) :
    Quality.surface_gap_error (runOps env l) = gapScore (runOps env l) ∧
    Quality.magnitude_variance_error (runOps env l) = varScore env (runOps env l) ∧
    Quality.wobble_error (runOps env l) = wobbleScore env (runOps env l) := by
  revert hl
  induction l using List.reverseRecOn with
  | nil =>
    intro hl
    simp [updatesSinceReset] at hl
  | append_singleton t op ih =>
    intro hl
    have husr : updatesSinceReset (t ++ [op]) = cntStep (updatesSinceReset t) op := by
      rw [updatesSinceReset_eq_foldl, List.foldl_append]
      rfl
    have hrun : runOps env (t ++ [op]) = applyQOp env (runOps env t) op := by
      unfold runOps
      rw [List.foldl_append]
      rfl
    cases op with
    | reset =>
      rw [husr] at hl
      simp [cntStep] at hl
    | update lo la p =>
      obtain ⟨a1, a2, a3, a4, _, _⟩ := foldl_QAcc env hlen t Quality.default 0 QAcc_default
      rw [hrun]
      exact update_buffers_eq_scores env (runOps env t) lo la p a1 a2 a3 a4
    | calcGap =>
      have husr' : 1 ≤ updatesSinceReset t := by
        rw [husr] at hl
        simpa [cntStep] using hl
      obtain ⟨i1, i2, i3⟩ := ih husr'
      rw [hrun]
      cases hflag : (runOps env t).quality_gaps_computed with
      | false =>
        show Quality.surface_gap_error ((Quality.calc_surface_gap_error (runOps env t)).2)
            = gapScore ((Quality.calc_surface_gap_error (runOps env t)).2) ∧
          Quality.magnitude_variance_error ((Quality.calc_surface_gap_error (runOps env t)).2)
            = varScore env ((Quality.calc_surface_gap_error (runOps env t)).2) ∧
          Quality.wobble_error ((Quality.calc_surface_gap_error (runOps env t)).2)
            = wobbleScore env ((Quality.calc_surface_gap_error (runOps env t)).2)
        rw [calc_gap_stale _ hflag]
        exact ⟨rfl, i2, i3⟩
      | true =>
        show Quality.surface_gap_error ((Quality.calc_surface_gap_error (runOps env t)).2)
            = gapScore ((Quality.calc_surface_gap_error (runOps env t)).2) ∧
          Quality.magnitude_variance_error ((Quality.calc_surface_gap_error (runOps env t)).2)
            = varScore env ((Quality.calc_surface_gap_error (runOps env t)).2) ∧
          Quality.wobble_error ((Quality.calc_surface_gap_error (runOps env t)).2)
            = wobbleScore env ((Quality.calc_surface_gap_error (runOps env t)).2)
        rw [calc_gap_fresh _ hflag]
        exact ⟨i1, i2, i3⟩
    | calcVar =>
      have husr' : 1 ≤ updatesSinceReset t := by
        rw [husr] at hl
        simpa [cntStep] using hl
      obtain ⟨i1, i2, i3⟩ := ih husr'
      rw [hrun]
      cases hflag : (runOps env t).quality_variance_computed with
      | false =>
        show Quality.surface_gap_error ((Quality.calc_magnitude_variance_error env (runOps env t)).2)
            = gapScore ((Quality.calc_magnitude_variance_error env (runOps env t)).2) ∧
          Quality.magnitude_variance_error
              ((Quality.calc_magnitude_variance_error env (runOps env t)).2)
            = varScore env ((Quality.calc_magnitude_variance_error env (runOps env t)).2) ∧
          Quality.wobble_error ((Quality.calc_magnitude_variance_error env (runOps env t)).2)
            = wobbleScore env ((Quality.calc_magnitude_variance_error env (runOps env t)).2)
        rw [calc_var_stale env _ hflag]
        exact ⟨i1, rfl, i3⟩
      | true =>
        show Quality.surface_gap_error ((Quality.calc_magnitude_variance_error env (runOps env t)).2)
            = gapScore ((Quality.calc_magnitude_variance_error env (runOps env t)).2) ∧
          Quality.magnitude_variance_error
              ((Quality.calc_magnitude_variance_error env (runOps env t)).2)
            = varScore env ((Quality.calc_magnitude_variance_error env (runOps env t)).2) ∧
          Quality.wobble_error ((Quality.calc_magnitude_variance_error env (runOps env t)).2)
            = wobbleScore env ((Quality.calc_magnitude_variance_error env (runOps env t)).2)
        rw [calc_var_fresh env _ hflag]
        exact ⟨i1, i2, i3⟩
    | calcWobble =>
      have husr' : 1 ≤ updatesSinceReset t := by
        rw [husr] at hl
        simpa [cntStep] using hl
      obtain ⟨i1, i2, i3⟩ := ih husr'
      rw [hrun]
      cases hflag : (runOps env t).quality_wobble_computed with
      | false =>
        show Quality.surface_gap_error ((Quality.calc_wobble_error env (runOps env t)).2)
            = gapScore ((Quality.calc_wobble_error env (runOps env t)).2) ∧
          Quality.magnitude_variance_error ((Quality.calc_wobble_error env (runOps env t)).2)
            = varScore env ((Quality.calc_wobble_error env (runOps env t)).2) ∧
          Quality.wobble_error ((Quality.calc_wobble_error env (runOps env t)).2)
            = wobbleScore env ((Quality.calc_wobble_error env (runOps env t)).2)
        rcases Nat.eq_zero_or_pos (wobbleSel (runOps env t)).length with hz | hpos
        · rw [calc_wobble_stale_empty env _ hflag hz]
          exact ⟨i1, i2, i3⟩
        · rw [calc_wobble_stale env _ hflag (Nat.pos_iff_ne_zero.mp hpos)]
          exact ⟨i1, i2, rfl⟩
      | true =>
        show Quality.surface_gap_error ((Quality.calc_wobble_error env (runOps env t)).2)
            = gapScore ((Quality.calc_wobble_error env (runOps env t)).2) ∧
          Quality.magnitude_variance_error ((Quality.calc_wobble_error env (runOps env t)).2)
            = varScore env ((Quality.calc_wobble_error env (runOps env t)).2) ∧
          Quality.wobble_error ((Quality.calc_wobble_error env (runOps env t)).2)
            = wobbleScore env ((Quality.calc_wobble_error env (runOps env t)).2)
        rw [calc_wobble_fresh env _ hflag]
        exact ⟨i1, i2, i3⟩

/-- Witness for C8 (amended) at a one-update operation sequence. -/
theorem cached_scores_valid_after_update_witness :
    envSample.ideal0.length = 100 ∧
    1 ≤ updatesSinceReset [QOp.update (.fin 0) (.fin 0) ⟨0, 0, 0⟩] ∧
    Quality.wobble_error (runOps envSample [QOp.update (.fin 0) (.fin 0) ⟨0, 0, 0⟩])
      = wobbleScore envSample (runOps envSample [QOp.update (.fin 0) (.fin 0) ⟨0, 0, 0⟩]) :=
  ⟨by simp [envSample], by decide,
   (cached_scores_valid_after_update envSample [QOp.update (.fin 0) (.fin 0) ⟨0, 0, 0⟩]
     (by simp [envSample]) (by decide)).2.2⟩
